import Mathlib

/-!
Verification development for the two browser-automation verification scripts
of the repository: `jules-scratch/verification/verify_extension.py` and
`verification_popup_updated.py`.

Each script is a straight-line sequence of Playwright calls.  We embed a run
of a script as a function from the process working directory and a "world"
(the observable behaviour of the browser: registered service workers, page
DOM contents, navigation success) to an `Outcome`: the ordered trace of
automation calls issued, together with the run's result (normal completion,
or the first unhandled Python exception).
-/

namespace RecordSteps

/-- Automation calls (and console prints) a script can issue, in the order
they appear in the trace of a run. -/
inductive Ev
  | launchPersistentContext (userDataDir : String) (headless : Bool)
      (channel : String) (args : List String)
  | waitForEvent (name : String)
  | newPage
  | goto (url : String)
  | assertHaveText (selector text : String)
  | assertVisible (selector : String)
  | screenshot (path : String)
  | close
  | launch (headless : Bool)
  | waitForSelector (selector : String)
  | printLine (s : String)
  deriving DecidableEq, Repr

/-- Unhandled Python exceptions a run can end with. -/
inductive Err
  | indexError
  | navigationError
  | timeoutError
  | assertionError
  deriving DecidableEq, Repr

/-- The outcome of one run: the trace of calls issued, and either normal
completion (`none`) or the exception that propagated (`some e`).  A run that
ends with `some e` terminates the Python process with a non-zero status. -/
structure Outcome where
  events : List Ev
  raised : Option Err
  deriving DecidableEq, Repr

/-- A run completed without raising. -/
def Outcome.ok (o : Outcome) : Bool := o.raised.isNone

/-- The filesystem writes of a run: the paths of its screenshot calls
(the only filesystem writes either script performs). -/
def Outcome.writes (o : Outcome) : List String :=
  o.events.filterMap fun e =>
    match e with
    | .screenshot p => some p
    | _ => none

/-- Whether an event is a Playwright `expect` assertion. -/
def Ev.isAssertion : Ev → Bool
  | .assertHaveText _ _ => true
  | .assertVisible _ => true
  | _ => false

/-- Whether an event is a filesystem write (a screenshot). -/
def Ev.isWrite : Ev → Bool
  | .screenshot _ => true
  | _ => false

/-- Whether an event is the `context.wait_for_event` call. -/
def Ev.isWaitForEvent : Ev → Bool
  | .waitForEvent _ => true
  | _ => false

/-- Whether an event is the explicit teardown call
(`context.close()` / `browser.close()`). -/
def Ev.isClose : Ev → Bool
  | .close => true
  | _ => false

/-- A Playwright service worker handle, as the scripts observe it: only its
URL is read. -/
structure Worker where
  url : String
  deriving DecidableEq, Repr

/-- Python truthiness of a Playwright `Worker` object.  `Worker` defines
neither `__bool__` nor `__len__`, so every `Worker` instance is truthy:
`not service_worker` is `False` whenever `service_worker` is bound to a
worker object. -/
def Worker.pyTruthy (_w : Worker) : Bool := true

/-- Python `s.split('/')`: split on every occurrence of the separator,
keeping empty components.  Auxiliary recursion over the character list,
with `acc` the (reversed) characters of the current component. -/
def pySplitAux (sep : Char) : List Char → List Char → List String
  | [], acc => [String.mk acc.reverse]
  | c :: cs, acc =>
      if c = sep then String.mk acc.reverse :: pySplitAux sep cs []
      else pySplitAux sep cs (c :: acc)

/-- Python `s.split(sep)` for a one-character separator. -/
def pySplit (sep : Char) (s : String) : List String :=
  pySplitAux sep s.data []

/-- The browser-side behaviour a run of `test_extension_popup` observes. -/
structure ExtWorld where
  /-- `context.service_workers`, at the moment the script reads it. -/
  serviceWorkers : List Worker
  /-- the worker `context.wait_for_event("serviceworker")` would deliver. -/
  eventWorker : Worker
  /-- whether `popup_page.goto` on the popup URL succeeds. -/
  popupLoads : Bool
  /-- text content of the `h2` locator on the popup page (`none` if absent). -/
  h2Text : Option String
  /-- the `#startBtn` element: its visibility and text (`none` if absent). -/
  startBtn : Option (Bool × String)
  deriving DecidableEq, Repr

/-- Shallow embedding of `test_extension_popup` from
`jules-scratch/verification/verify_extension.py`.  `cwd` is the value of
`os.path.abspath(".")`, the absolute working directory of the process.
Building a locator (`page.locator(...)`) issues no protocol call and emits
no event; each `expect(...)` assertion does. -/
def test_extension_popup (cwd : String) (w : ExtWorld) : Outcome :=
  let extension_path := cwd
  let launchEv := Ev.launchPersistentContext "" true "chromium"
    ["--disable-extensions-except=" ++ extension_path,
     "--load-extension=" ++ extension_path]
  -- service_worker = context.service_workers[0]  (IndexError on [])
  match w.serviceWorkers[0]? with
  | none => ⟨[launchEv], some .indexError⟩
  | some sw0 =>
    -- if not service_worker: service_worker = context.wait_for_event(...)
    let waited : List Ev × Worker :=
      if sw0.pyTruthy then ([], sw0)
      else ([Ev.waitForEvent "serviceworker"], w.eventWorker)
    let pre := [launchEv] ++ waited.1
    let service_worker := waited.2
    -- extension_id = service_worker.url.split('/')[2]  (IndexError if short)
    match (pySplit '/' service_worker.url)[2]? with
    | none => ⟨pre, some .indexError⟩
    | some extension_id =>
      let popupUrl := "chrome-extension://" ++ extension_id ++ "/popup.html"
      let evs := pre ++ [Ev.newPage, Ev.goto popupUrl]
      if !w.popupLoads then ⟨evs, some .navigationError⟩ else
      let evs := evs ++ [Ev.assertHaveText "h2" "Click Recorder"]
      if w.h2Text ≠ some "Click Recorder" then ⟨evs, some .assertionError⟩ else
      let evs := evs ++ [Ev.assertVisible "#startBtn"]
      match w.startBtn with
      | none => ⟨evs, some .assertionError⟩
      | some (vis, txt) =>
        if !vis then ⟨evs, some .assertionError⟩ else
        let evs := evs ++ [Ev.assertHaveText "#startBtn" "Start Recording"]
        if txt ≠ "Start Recording" then ⟨evs, some .assertionError⟩ else
        ⟨evs ++ [Ev.screenshot "jules-scratch/verification/popup.png", Ev.close],
         none⟩

/-- The browser-side behaviour a run of `verify_popup` observes. -/
structure PopupWorld where
  /-- whether `page.goto` on the `file://` popup URL succeeds. -/
  pageLoads : Bool
  /-- whether `#loggingLevel` appears before `wait_for_selector` times out. -/
  hasLoggingLevel : Bool
  /-- whether `#loggingDescription` appears before the wait times out. -/
  hasLoggingDescription : Bool
  /-- visible label text of the `#loggingLevel` dropdown; present on the page
  but never read by the script. -/
  loggingLevelLabel : String
  deriving DecidableEq, Repr

/-- Shallow embedding of `verify_popup` from `verification_popup_updated.py`.
`cwd` is the value of `os.getcwd()`. -/
def verify_popup (cwd : String) (w : PopupWorld) : Outcome :=
  let popup_path := "file://" ++ cwd ++ "/popup.html"
  let evs := [Ev.launch true, Ev.newPage,
              Ev.printLine ("Loading " ++ popup_path), Ev.goto popup_path]
  if !w.pageLoads then ⟨evs, some .navigationError⟩ else
  let evs := evs ++ [Ev.waitForSelector "#loggingLevel"]
  if !w.hasLoggingLevel then ⟨evs, some .timeoutError⟩ else
  let evs := evs ++ [Ev.waitForSelector "#loggingDescription"]
  if !w.hasLoggingDescription then ⟨evs, some .timeoutError⟩ else
  let screenshot_path := "verification_popup_updated.png"
  ⟨evs ++ [Ev.screenshot screenshot_path,
           Ev.printLine ("Screenshot saved to " ++ screenshot_path), Ev.close],
   none⟩

/-- The Python process running `verify_extension.py` receives an argument
vector and an environment; the source reads neither (its only `os` uses are
`os.path.abspath`), so the embedding of the process entry point discards
them. -/
def test_extension_popup_proc (_argv : List String)
    (_env : List (String × String)) (cwd : String) (w : ExtWorld) : Outcome :=
  test_extension_popup cwd w

/-- The Python process running `verification_popup_updated.py` receives an
argument vector and an environment; the source reads neither (its only `os`
use is `os.getcwd`), so the embedding of the process entry point discards
them. -/
def verify_popup_proc (_argv : List String)
    (_env : List (String × String)) (cwd : String) (w : PopupWorld) : Outcome :=
  verify_popup cwd w

/-- The complete, fixed-order call sequence of a run of
`test_extension_popup` that completes without raising. -/
def extFullEvents (cwd : String) (w : ExtWorld) : List Ev :=
  let sw := (w.serviceWorkers[0]?).getD ⟨""⟩
  let extension_id := ((pySplit '/' sw.url)[2]?).getD ""
  [Ev.launchPersistentContext "" true "chromium"
     ["--disable-extensions-except=" ++ cwd, "--load-extension=" ++ cwd],
   Ev.newPage,
   Ev.goto ("chrome-extension://" ++ extension_id ++ "/popup.html"),
   Ev.assertHaveText "h2" "Click Recorder",
   Ev.assertVisible "#startBtn",
   Ev.assertHaveText "#startBtn" "Start Recording",
   Ev.screenshot "jules-scratch/verification/popup.png",
   Ev.close]

/-- The complete, fixed-order call sequence of a run of `verify_popup` that
completes without raising. -/
def popupFullEvents (cwd : String) : List Ev :=
  let popup_path := "file://" ++ cwd ++ "/popup.html"
  [Ev.launch true, Ev.newPage, Ev.printLine ("Loading " ++ popup_path),
   Ev.goto popup_path,
   Ev.waitForSelector "#loggingLevel",
   Ev.waitForSelector "#loggingDescription",
   Ev.screenshot "verification_popup_updated.png",
   Ev.printLine "Screenshot saved to verification_popup_updated.png",
   Ev.close]

/-- A browser behaviour under which `test_extension_popup` succeeds. -/
def extOkWorld : ExtWorld :=
  ⟨[⟨"chrome-extension://abcdefgh/background.js"⟩], ⟨"w"⟩, true,
    some "Click Recorder", some (true, "Start Recording")⟩

/-- A browser behaviour whose context has no registered service worker; the
popup page itself is exactly as expected. -/
def extEmptyWorld : ExtWorld :=
  ⟨[], ⟨"w"⟩, true, some "Click Recorder", some (true, "Start Recording")⟩

/-- A page behaviour under which `verify_popup` succeeds. -/
def popupOkWorld : PopupWorld := ⟨true, true, true, "Logging level:"⟩

/-- A page behaviour where `#loggingLevel` never appears. -/
def popupNoLevelWorld : PopupWorld := ⟨true, false, true, "Logging level:"⟩

example :
    pySplit '/' "chrome-extension://abcdefgh/background.js" =
      ["chrome-extension:", "", "abcdefgh", "background.js"] := by decide

example :
    (test_extension_popup "/repo"
      ⟨[⟨"chrome-extension://abcdefgh/sw.js"⟩], ⟨"x"⟩, true,
        some "Click Recorder", some (true, "Start Recording")⟩).ok = true := by
  decide

example :
    (test_extension_popup "/repo"
      ⟨[], ⟨"x"⟩, true, some "Click Recorder",
        some (true, "Start Recording")⟩).raised = some .indexError := by
  decide

example :
    (verify_popup "/repo" ⟨true, true, true, "Logging level"⟩).ok = true := by
  decide

example :
    (verify_popup "/repo" ⟨true, false, true, "L"⟩).raised =
      some .timeoutError := by decide

/-- Every run of `verify_popup` issues an initial segment of the fixed
success-order call sequence. -/
theorem popup_take (cwd : String) (w : PopupWorld) :
    (verify_popup cwd w).events =
      (popupFullEvents cwd).take (verify_popup cwd w).events.length := by
  simp only [verify_popup, popupFullEvents]
  split
  · simp
  · split
    · simp
    · split
      · simp
      · simp

/-- A run of `verify_popup` that completes without raising issues exactly the
fixed success-order call sequence. -/
theorem popup_ok_events (cwd : String) (w : PopupWorld)
    (h : (verify_popup cwd w).ok = true) :
    (verify_popup cwd w).events = popupFullEvents cwd := by
  simp only [verify_popup, popupFullEvents, Outcome.ok] at h ⊢
  split at h
  · simp_all
  · split at h
    · simp_all
    · split at h
      · simp_all
      · simp_all

/-- A run of `verify_popup` that raises stops strictly before the end of the
success-order call sequence. -/
theorem popup_fail_short (cwd : String) (w : PopupWorld)
    (h : (verify_popup cwd w).ok = false) :
    (verify_popup cwd w).raised.isSome = true ∧
      (verify_popup cwd w).events.length < (popupFullEvents cwd).length := by
  simp only [verify_popup, popupFullEvents, Outcome.ok] at h ⊢
  split at h
  · simp_all
  · split at h
    · simp_all
    · split at h
      · simp_all
      · simp_all

/-- Every run of `test_extension_popup` issues an initial segment of the
fixed success-order call sequence. -/
theorem ext_take (cwd : String) (w : ExtWorld) :
    (test_extension_popup cwd w).events =
      (extFullEvents cwd w).take (test_extension_popup cwd w).events.length := by
  simp only [test_extension_popup, extFullEvents, Worker.pyTruthy]
  repeat' split
  all_goals simp_all

/-- A run of `test_extension_popup` that completes without raising issues
exactly the fixed success-order call sequence. -/
theorem ext_ok_events (cwd : String) (w : ExtWorld)
    (h : (test_extension_popup cwd w).ok = true) :
    (test_extension_popup cwd w).events = extFullEvents cwd w := by
  simp only [test_extension_popup, extFullEvents, Worker.pyTruthy,
    Outcome.ok] at h ⊢
  repeat' split at h
  all_goals simp_all

/-- A run of `test_extension_popup` that raises stops strictly before the end
of the success-order call sequence. -/
theorem ext_fail_short (cwd : String) (w : ExtWorld)
    (h : (test_extension_popup cwd w).ok = false) :
    (test_extension_popup cwd w).raised.isSome = true ∧
      (test_extension_popup cwd w).events.length <
        (extFullEvents cwd w).length := by
  simp only [test_extension_popup, extFullEvents, Worker.pyTruthy,
    Outcome.ok] at h ⊢
  repeat' split at h
  all_goals simp_all

/-- A run of `test_extension_popup` that completes without raising observed
the asserted facts about the popup DOM. -/
theorem ext_ok_world (cwd : String) (w : ExtWorld)
    (h : (test_extension_popup cwd w).ok = true) :
    w.h2Text = some "Click Recorder" ∧
      w.startBtn = some (true, "Start Recording") := by
  simp only [test_extension_popup, Worker.pyTruthy, Outcome.ok] at h
  repeat' split at h
  all_goals simp_all

/-- A run of `verify_popup` that completes without raising saw both waited
selectors appear. -/
theorem popup_ok_world (cwd : String) (w : PopupWorld)
    (h : (verify_popup cwd w).ok = true) :
    w.hasLoggingLevel = true ∧ w.hasLoggingDescription = true := by
  simp only [verify_popup, Outcome.ok] at h
  repeat' split at h
  all_goals simp_all

/-- A run of `test_extension_popup` issues its screenshot write exactly when
it completes without raising. -/
theorem ext_write_iff_ok (cwd : String) (w : ExtWorld) :
    (test_extension_popup cwd w).events.any Ev.isWrite =
      (test_extension_popup cwd w).ok := by
  simp only [test_extension_popup, Outcome.ok, Worker.pyTruthy]
  repeat' split
  all_goals simp_all [Ev.isWrite]

/-- A run of `verify_popup` issues its screenshot write exactly when it
completes without raising. -/
theorem popup_write_iff_ok (cwd : String) (w : PopupWorld) :
    (verify_popup cwd w).events.any Ev.isWrite = (verify_popup cwd w).ok := by
  simp only [verify_popup, Outcome.ok]
  repeat' split
  all_goals simp_all [Ev.isWrite]

/-- A run of `test_extension_popup` issues its explicit `context.close()`
exactly when it completes without raising. -/
theorem ext_close_iff_ok (cwd : String) (w : ExtWorld) :
    (test_extension_popup cwd w).events.any Ev.isClose =
      (test_extension_popup cwd w).ok := by
  simp only [test_extension_popup, Outcome.ok, Worker.pyTruthy]
  repeat' split
  all_goals simp_all [Ev.isClose]

/-- A run of `verify_popup` issues its explicit `browser.close()` exactly
when it completes without raising. -/
theorem popup_close_iff_ok (cwd : String) (w : PopupWorld) :
    (verify_popup cwd w).events.any Ev.isClose = (verify_popup cwd w).ok := by
  simp only [verify_popup, Outcome.ok]
  repeat' split
  all_goals simp_all [Ev.isClose]

/-- The last call of a run of `test_extension_popup` is the explicit
teardown exactly when the run completed without raising. -/
theorem ext_last_iff_ok (cwd : String) (w : ExtWorld) :
    (test_extension_popup cwd w).events.getLast? = some Ev.close ↔
      (test_extension_popup cwd w).ok = true := by
  simp only [test_extension_popup, Outcome.ok, Worker.pyTruthy]
  repeat' split
  all_goals simp_all

/-- The last call of a run of `verify_popup` is the explicit teardown
exactly when the run completed without raising. -/
theorem popup_last_iff_ok (cwd : String) (w : PopupWorld) :
    (verify_popup cwd w).events.getLast? = some Ev.close ↔
      (verify_popup cwd w).ok = true := by
  simp only [verify_popup, Outcome.ok]
  repeat' split
  all_goals simp_all

/-- The filesystem writes of a run of `test_extension_popup`: none on
failure, exactly the fixed screenshot path on success. -/
theorem ext_writes_spec (cwd : String) (w : ExtWorld) :
    ((test_extension_popup cwd w).writes = [] ∨
      (test_extension_popup cwd w).writes =
        ["jules-scratch/verification/popup.png"])
    ∧ ((test_extension_popup cwd w).ok = true →
        (test_extension_popup cwd w).writes =
          ["jules-scratch/verification/popup.png"]) := by
  simp only [test_extension_popup, Outcome.ok, Outcome.writes, Worker.pyTruthy]
  repeat' split
  all_goals simp_all

/-- The filesystem writes of a run of `verify_popup`: none on failure,
exactly the fixed screenshot path on success. -/
theorem popup_writes_spec (cwd : String) (w : PopupWorld) :
    ((verify_popup cwd w).writes = [] ∨
      (verify_popup cwd w).writes = ["verification_popup_updated.png"])
    ∧ ((verify_popup cwd w).ok = true →
        (verify_popup cwd w).writes = ["verification_popup_updated.png"]) := by
  simp only [verify_popup, Outcome.ok, Outcome.writes]
  repeat' split
  all_goals simp_all

/-- C1: in `test_extension_popup`, a browser context with no registered
service worker does not make the script block on
`wait_for_event("serviceworker")`: reading `context.service_workers[0]`
raises `IndexError` first, so the run fails and extension-id extraction is
never reached; moreover no run of the script ever issues the
`wait_for_event` call, because a bound Playwright `Worker` object is always
truthy and the `if not service_worker` guard can never fire. -/
theorem c1_wait_branch_unreachable :
    (test_extension_popup "/repo" extEmptyWorld).raised = some Err.indexError
    ∧ (test_extension_popup "/repo" extEmptyWorld).events =
        [Ev.launchPersistentContext "" true "chromium"
          ["--disable-extensions-except=/repo", "--load-extension=/repo"]]
    ∧ ∀ (cwd : String) (w : ExtWorld),
        (test_extension_popup cwd w).events.any Ev.isWaitForEvent = false := by
  refine ⟨by decide, by decide, ?_⟩
  intro cwd w
  simp only [test_extension_popup, Worker.pyTruthy]
  repeat' split
  all_goals simp_all [Ev.isWaitForEvent]

/-- C2: a run of `test_extension_popup` that completes without raising has
verified that the popup's `h2` heading has exact text "Click Recorder" and
that `#startBtn` is visible with exact text "Start Recording", and its
trace contains exactly these three `expect` assertions and no others. -/
theorem c2_popup_assertions (cwd : String) (w : ExtWorld)
    (h : (test_extension_popup cwd w).ok = true) :
    w.h2Text = some "Click Recorder" ∧
      w.startBtn = some (true, "Start Recording") ∧
      (test_extension_popup cwd w).events.filter Ev.isAssertion =
        [Ev.assertHaveText "h2" "Click Recorder",
         Ev.assertVisible "#startBtn",
         Ev.assertHaveText "#startBtn" "Start Recording"] := by
  obtain ⟨h1, h2⟩ := ext_ok_world cwd w h
  refine ⟨h1, h2, ?_⟩
  rw [ext_ok_events cwd w h]
  simp [extFullEvents, Ev.isAssertion]

/-- C2 witness: the three assertion facts at a concrete successful run. -/
theorem c2_popup_assertions_witness :
    extOkWorld.h2Text = some "Click Recorder" ∧
      extOkWorld.startBtn = some (true, "Start Recording") ∧
      (test_extension_popup "/repo" extOkWorld).events.filter Ev.isAssertion =
        [Ev.assertHaveText "h2" "Click Recorder",
         Ev.assertVisible "#startBtn",
         Ev.assertHaveText "#startBtn" "Start Recording"] :=
  c2_popup_assertions "/repo" extOkWorld (by decide)

/-- C3: every failing run of either script propagates its first exception
unhandled: the run's result records the exception (so the process exits
with non-zero status), the trace is an initial segment of the fixed
success-order call sequence, and on failure the trace stops strictly before
the end of that sequence — there is no retry, catch, or recovery path that
continues execution after a failure. -/
theorem c3_failures_propagate (cwd : String) (wE : ExtWorld)
    (wP : PopupWorld) :
    ((test_extension_popup cwd wE).events =
      (extFullEvents cwd wE).take (test_extension_popup cwd wE).events.length)
    ∧ ((test_extension_popup cwd wE).ok = false →
        (test_extension_popup cwd wE).raised.isSome = true ∧
          (test_extension_popup cwd wE).events.length <
            (extFullEvents cwd wE).length)
    ∧ ((verify_popup cwd wP).events =
        (popupFullEvents cwd).take (verify_popup cwd wP).events.length)
    ∧ ((verify_popup cwd wP).ok = false →
        (verify_popup cwd wP).raised.isSome = true ∧
          (verify_popup cwd wP).events.length <
            (popupFullEvents cwd).length) :=
  ⟨ext_take cwd wE, ext_fail_short cwd wE, popup_take cwd wP,
   popup_fail_short cwd wP⟩

/-- C3 witness: concrete failing runs of both scripts end with a recorded
exception. -/
theorem c3_failures_propagate_witness :
    (test_extension_popup "/repo" extEmptyWorld).raised.isSome = true ∧
      (verify_popup "/repo" popupNoLevelWorld).raised.isSome = true :=
  ⟨((c3_failures_propagate "/repo" extEmptyWorld popupNoLevelWorld).2.1
      (by decide)).1,
   ((c3_failures_propagate "/repo" extEmptyWorld popupNoLevelWorld).2.2.2
      (by decide)).1⟩

/-- C4 counterexample: on the run of `verify_popup` where `#loggingLevel`
never appears, the selector wait raises and the script ends without ever
issuing its explicit `browser.close()` teardown call — refuting the claim
that the teardown call is executed on every run, including raising ones. -/
theorem c4_no_close_on_failure :
    (verify_popup "/repo" popupNoLevelWorld).raised = some Err.timeoutError ∧
      (verify_popup "/repo" popupNoLevelWorld).events.any Ev.isClose =
        false := by
  decide

/-- C4 (amended): in either script the explicit teardown call
(`context.close()` / `browser.close()`) is executed exactly on the runs
that complete without raising, and then as the final operation; on a run
where an intermediate step raises, the teardown call is never issued and
cleanup is left to the `sync_playwright` context manager. -/
theorem c4_teardown_iff_success (cwd : String) (wE : ExtWorld)
    (wP : PopupWorld) :
    ((test_extension_popup cwd wE).events.any Ev.isClose =
      (test_extension_popup cwd wE).ok)
    ∧ ((test_extension_popup cwd wE).events.getLast? = some Ev.close ↔
        (test_extension_popup cwd wE).ok = true)
    ∧ ((verify_popup cwd wP).events.any Ev.isClose = (verify_popup cwd wP).ok)
    ∧ ((verify_popup cwd wP).events.getLast? = some Ev.close ↔
        (verify_popup cwd wP).ok = true) :=
  ⟨ext_close_iff_ok cwd wE, ext_last_iff_ok cwd wE,
   popup_close_iff_ok cwd wP, popup_last_iff_ok cwd wP⟩

/-- C4 (amended) witness: at a concrete successful run the final operation
is the explicit teardown call. -/
theorem c4_teardown_iff_success_witness :
    (test_extension_popup "/repo" extOkWorld).events.getLast? =
      some Ev.close :=
  ((c4_teardown_iff_success "/repo" extOkWorld popupOkWorld).2.1).mpr
    (by decide)

/-- C5 counterexample: a run of `verify_popup` completes without raising on
a page whose `#loggingLevel` dropdown carries a wrong label, and its trace
contains no assertion at all — the dropdown's label text is never checked,
refuting the claim that a completing run has checked it. -/
theorem c5_label_never_checked :
    (verify_popup "/repo" ⟨true, true, true, "Wrong Label"⟩).ok = true ∧
      (verify_popup "/repo" ⟨true, true, true, "Wrong Label"⟩).events.filter
        Ev.isAssertion = [] := by
  decide

/-- C5 (amended): `test_extension_popup` asserts that the heading and the
button are present and correctly labeled, but `verify_popup` checks the
dropdown only for presence: its outcome is independent of the dropdown's
label text, its trace contains no assertion, and a completing run
guarantees only that `#loggingLevel` and `#loggingDescription` appeared. -/
theorem c5_dropdown_presence_only (cwd : String) (wE : ExtWorld)
    (w : PopupWorld) (label : String) :
    verify_popup cwd { w with loggingLevelLabel := label } = verify_popup cwd w
    ∧ (verify_popup cwd w).events.any Ev.isAssertion = false
    ∧ ((verify_popup cwd w).ok = true →
        w.hasLoggingLevel = true ∧ w.hasLoggingDescription = true)
    ∧ ((test_extension_popup cwd wE).ok = true →
        wE.h2Text = some "Click Recorder" ∧
          wE.startBtn = some (true, "Start Recording")) := by
  refine ⟨rfl, ?_, popup_ok_world cwd w, ext_ok_world cwd wE⟩
  simp only [verify_popup]
  repeat' split
  all_goals simp_all [Ev.isAssertion]

/-- C5 (amended) witness: concrete successful runs discharge both
hypotheses. -/
theorem c5_dropdown_presence_only_witness :
    popupOkWorld.hasLoggingLevel = true ∧
      extOkWorld.h2Text = some "Click Recorder" :=
  ⟨((c5_dropdown_presence_only "/repo" extOkWorld popupOkWorld "L").2.2.1
      (by decide)).1,
   ((c5_dropdown_presence_only "/repo" extOkWorld popupOkWorld "L").2.2.2
      (by decide)).1⟩

/-- C6: a run of `verify_popup` that completes without raising saw both
`#loggingLevel` and `#loggingDescription` appear, and its trace is exactly
the fixed sequence in which both selector waits precede the screenshot. -/
theorem c6_waits_before_screenshot (cwd : String) (w : PopupWorld)
    (h : (verify_popup cwd w).ok = true) :
    w.hasLoggingLevel = true ∧ w.hasLoggingDescription = true ∧
      (verify_popup cwd w).events = popupFullEvents cwd ∧
      (popupFullEvents cwd).take 7 =
        [Ev.launch true, Ev.newPage,
         Ev.printLine ("Loading " ++ ("file://" ++ cwd ++ "/popup.html")),
         Ev.goto ("file://" ++ cwd ++ "/popup.html"),
         Ev.waitForSelector "#loggingLevel",
         Ev.waitForSelector "#loggingDescription",
         Ev.screenshot "verification_popup_updated.png"] := by
  obtain ⟨h1, h2⟩ := popup_ok_world cwd w h
  exact ⟨h1, h2, popup_ok_events cwd w h, rfl⟩

/-- C6 witness: the facts at a concrete successful run. -/
theorem c6_waits_before_screenshot_witness :
    popupOkWorld.hasLoggingLevel = true ∧
      popupOkWorld.hasLoggingDescription = true ∧
      (verify_popup "/repo" popupOkWorld).events = popupFullEvents "/repo" ∧
      (popupFullEvents "/repo").take 7 =
        [Ev.launch true, Ev.newPage,
         Ev.printLine ("Loading " ++ ("file://" ++ "/repo" ++ "/popup.html")),
         Ev.goto ("file://" ++ "/repo" ++ "/popup.html"),
         Ev.waitForSelector "#loggingLevel",
         Ev.waitForSelector "#loggingDescription",
         Ev.screenshot "verification_popup_updated.png"] :=
  c6_waits_before_screenshot "/repo" popupOkWorld (by decide)

/-- C7: the only filesystem writes either script performs are its
screenshots, at fixed input-independent relative paths:
`test_extension_popup` writes nothing (on failure) or exactly
"jules-scratch/verification/popup.png", `verify_popup` writes nothing or
exactly "verification_popup_updated.png", and each completing run performs
exactly its one write. -/
theorem c7_fixed_write_paths (cwd : String) (wE : ExtWorld)
    (wP : PopupWorld) :
    ((test_extension_popup cwd wE).writes = [] ∨
      (test_extension_popup cwd wE).writes =
        ["jules-scratch/verification/popup.png"])
    ∧ ((test_extension_popup cwd wE).ok = true →
        (test_extension_popup cwd wE).writes =
          ["jules-scratch/verification/popup.png"])
    ∧ ((verify_popup cwd wP).writes = [] ∨
        (verify_popup cwd wP).writes = ["verification_popup_updated.png"])
    ∧ ((verify_popup cwd wP).ok = true →
        (verify_popup cwd wP).writes = ["verification_popup_updated.png"]) :=
  ⟨(ext_writes_spec cwd wE).1, (ext_writes_spec cwd wE).2,
   (popup_writes_spec cwd wP).1, (popup_writes_spec cwd wP).2⟩

/-- C7 witness: the write lists of two concrete successful runs. -/
theorem c7_fixed_write_paths_witness :
    (test_extension_popup "/repo" extOkWorld).writes =
      ["jules-scratch/verification/popup.png"] ∧
      (verify_popup "/repo" popupOkWorld).writes =
        ["verification_popup_updated.png"] :=
  ⟨(c7_fixed_write_paths "/repo" extOkWorld popupOkWorld).2.1 (by decide),
   (c7_fixed_write_paths "/repo" extOkWorld popupOkWorld).2.2.2 (by decide)⟩

/-- C8: the operations of both scripts occur strictly sequentially in a
fixed order — every trace is an initial segment of the success-order call
sequence (session start, navigation, waits and assertions, screenshot,
teardown) — and the screenshot write is issued only on runs in which every
preceding wait and assertion succeeded (runs that complete without
raising). -/
theorem c8_sequential_screenshot_gated (cwd : String) (wE : ExtWorld)
    (wP : PopupWorld) :
    ((test_extension_popup cwd wE).events =
      (extFullEvents cwd wE).take (test_extension_popup cwd wE).events.length)
    ∧ ((test_extension_popup cwd wE).events.any Ev.isWrite = true →
        (test_extension_popup cwd wE).ok = true)
    ∧ ((verify_popup cwd wP).events =
        (popupFullEvents cwd).take (verify_popup cwd wP).events.length)
    ∧ ((verify_popup cwd wP).events.any Ev.isWrite = true →
        (verify_popup cwd wP).ok = true) := by
  refine ⟨ext_take cwd wE, ?_, popup_take cwd wP, ?_⟩
  · intro h
    rwa [ext_write_iff_ok cwd wE] at h
  · intro h
    rwa [popup_write_iff_ok cwd wP] at h

/-- C8 witness: concrete successful runs discharge both screenshot-gating
hypotheses. -/
theorem c8_sequential_screenshot_gated_witness :
    (test_extension_popup "/repo" extOkWorld).ok = true ∧
      (verify_popup "/repo" popupOkWorld).ok = true :=
  ⟨(c8_sequential_screenshot_gated "/repo" extOkWorld popupOkWorld).2.1
      (by decide),
   (c8_sequential_screenshot_gated "/repo" extOkWorld popupOkWorld).2.2.2
      (by decide)⟩

/-- C9: neither script reads its argument vector or its environment — two
process runs with the same working directory and the same browser behaviour
issue identical outcomes whatever argv and env are — and the automation-call
arguments visible in every trace are built from the working directory
alone: `verify_popup` always navigates to `file://<cwd>/popup.html` and
`test_extension_popup` always launches the browser with the two
extension-loading flags pointing at `<cwd>`. -/
theorem c9_no_argv_env_dependence (a₁ a₂ : List String)
    (e₁ e₂ : List (String × String)) (cwd : String) (wE : ExtWorld)
    (wP : PopupWorld) :
    test_extension_popup_proc a₁ e₁ cwd wE =
      test_extension_popup_proc a₂ e₂ cwd wE
    ∧ verify_popup_proc a₁ e₁ cwd wP = verify_popup_proc a₂ e₂ cwd wP
    ∧ Ev.goto ("file://" ++ cwd ++ "/popup.html") ∈
        (verify_popup cwd wP).events
    ∧ Ev.launchPersistentContext "" true "chromium"
        ["--disable-extensions-except=" ++ cwd, "--load-extension=" ++ cwd]
        ∈ (test_extension_popup cwd wE).events := by
  refine ⟨rfl, rfl, ?_, ?_⟩
  · simp only [verify_popup]
    repeat' split
    all_goals simp
  · simp only [test_extension_popup, Worker.pyTruthy]
    repeat' split
    all_goals simp

/-- C10: in `test_extension_popup`, when the first registered service
worker's URL splits on '/' into at least three components, the extension id
is exactly component 2 of that split and the page navigated to is exactly
"chrome-extension://" ++ id ++ "/popup.html". -/
theorem c10_extension_id_from_split (cwd : String) (w : ExtWorld)
    (sw : Worker) (eid : String) (h0 : w.serviceWorkers[0]? = some sw)
    (h2 : (pySplit '/' sw.url)[2]? = some eid) :
    Ev.goto ("chrome-extension://" ++ eid ++ "/popup.html") ∈
      (test_extension_popup cwd w).events := by
  simp only [test_extension_popup, Worker.pyTruthy, h0, reduceIte]
  repeat' split
  all_goals simp_all

/-- C10 witness: at a concrete run, the navigated URL is built from
component 2 of the service worker URL's split. -/
theorem c10_extension_id_from_split_witness :
    Ev.goto ("chrome-extension://" ++ "abcdefgh" ++ "/popup.html") ∈
      (test_extension_popup "/repo" extOkWorld).events :=
  c10_extension_id_from_split "/repo" extOkWorld
    ⟨"chrome-extension://abcdefgh/background.js"⟩ "abcdefgh"
    (by decide) (by decide)

end RecordSteps
